import Mathlib

set_option autoImplicit false

/-!
Shallow embedding of the attendance core of
`AttendenceManager/backend/server.py`: the attendance engine
(`mark_attendance`, `mark_bulk_attendance`, `get_attendance`), the report
generator (`get_attendance_report`) and the class authorization checks
(`update_class`, `delete_class`).

The MongoDB collections are modelled as Lean lists of records in insertion
order; `find_one` is `List.find?` (first match), `update_one` patches the
first matching document in place, `delete_one` removes the first matching
document and reports the deleted count, and `insert_one` appends.
Timestamps are modelled as `Nat` ticks supplied by the caller, and freshly
generated UUIDs as `String` values supplied by the caller.  Mongo's
`$gte`/`$lte` string-range comparison is embedded as a code-unit
lexicographic comparison `strLe`.  Python floats from
`round(x, 2)` are modelled over `ℚ` with rounding to two decimals.
-/

namespace StudentAttendance

/-- Attendance document, mirroring the `Attendance` pydantic model
(fields `id`, `student_id`, `class_id`, `date`, `status`, `marked_by`,
`remarks`, `created_at`, `updated_at`). -/
structure AttendanceRecord where
  id : String
  student_id : String
  class_id : String
  date : String
  status : String
  marked_by : String
  remarks : Option String
  created_at : Nat
  updated_at : Nat
deriving DecidableEq, Repr

/-- Input payload of `POST /attendance`, mirroring `AttendanceCreate`. -/
structure AttendanceCreate where
  student_id : String
  class_id : String
  date : String
  status : String
  remarks : Option String
deriving DecidableEq, Repr

/-- Student document (the fields the report generator reads). -/
structure Student where
  id : String
  name : String
  roll_number : String
  class_id : String
deriving DecidableEq, Repr

/-- Class document (the fields update/delete read); `sectionName` stands for
the source field `section`, which is a reserved word in Lean. -/
structure ClassRec where
  id : String
  name : String
  sectionName : String
  subject : Option String
  teacher_id : String
deriving DecidableEq, Repr

/-- Input payload of `PUT /classes/{id}`, mirroring `ClassCreate`. -/
structure ClassCreateInput where
  name : String
  sectionName : String
  subject : Option String
deriving DecidableEq, Repr

/-- Caller identity resolved from the bearer token (`User.id`, `User.role`). -/
structure UserT where
  id : String
  role : String
deriving DecidableEq, Repr

/-- FastAPI `HTTPException(status_code=..., detail=...)`. -/
structure HTTPException where
  status_code : Nat
  detail : String
deriving DecidableEq, Repr

/-- Code-unit lexicographic order on char lists, embedding MongoDB's
string comparison used by the `$gte`/`$lte` date-range filters. -/
def listLexLe : List Char → List Char → Bool
  | [], _ => true
  | _ :: _, [] => false
  | a :: as, b :: bs =>
    if a.toNat < b.toNat then true
    else if b.toNat < a.toNat then false
    else listLexLe as bs

/-- String comparison `a <= b` as MongoDB performs it on `date` strings. -/
def strLe (a b : String) : Bool := listLexLe a.data b.data

/-- Mongo filter `{student_id: s, class_id: c, date: d}` on one document. -/
def tripleMatch (s c d : String) (r : AttendanceRecord) : Bool :=
  r.student_id == s && r.class_id == c && r.date == d

/-- Triple filter built from an `AttendanceCreate` payload, as in the
`find_one` call of `mark_attendance`. -/
def tripleMatchI (input : AttendanceCreate) (r : AttendanceRecord) : Bool :=
  tripleMatch input.student_id input.class_id input.date r

/-- Mongo `update_one(filter, {"$set": ...})`: patch the first document
matching the filter, leave the rest unchanged. -/
def updateFirst {α : Type} (p : α → Bool) (f : α → α) : List α → List α
  | [] => []
  | x :: xs => if p x then f x :: xs else x :: updateFirst p f xs

/-- Mongo `delete_one(filter)`: remove the first document matching the
filter and report the deleted count. -/
def deleteFirst {α : Type} (p : α → Bool) : List α → List α × Nat
  | [] => ([], 0)
  | x :: xs =>
    if p x then (xs, 1)
    else
      let r := deleteFirst p xs
      (x :: r.1, r.2)

/-- Update payload of the existing-record branch of `mark_attendance`:
`update_data = attendance_input.model_dump()` plus `marked_by` and a fresh
`updated_at`; `id` and `created_at` are not in the payload and persist. -/
def applyMark (input : AttendanceCreate) (callerId : String) (now : Nat)
    (r : AttendanceRecord) : AttendanceRecord :=
  { r with
    student_id := input.student_id
    class_id := input.class_id
    date := input.date
    status := input.status
    remarks := input.remarks
    marked_by := callerId
    updated_at := now }

/-- New document built in the create branch of `mark_attendance`: fresh
`id`, `created_at = updated_at = now`, `marked_by` from the caller. -/
def newRecord (input : AttendanceCreate) (callerId freshId : String) (now : Nat) :
    AttendanceRecord :=
  { id := freshId
    student_id := input.student_id
    class_id := input.class_id
    date := input.date
    status := input.status
    marked_by := callerId
    remarks := input.remarks
    created_at := now
    updated_at := now }

/-- `POST /attendance` (`mark_attendance`): look up the
`(student_id, class_id, date)` triple; if a document exists, patch it by id
and re-fetch it, otherwise insert a new document.  Returns the new
collection state and the record returned to the caller. -/
def mark_attendance (db : List AttendanceRecord) (input : AttendanceCreate)
    (callerId freshId : String) (now : Nat) :
    List AttendanceRecord × Option AttendanceRecord :=
  match db.find? (tripleMatchI input) with
  | some existing =>
    let db2 := updateFirst (fun r => r.id == existing.id)
      (applyMark input callerId now) db
    (db2, db2.find? (fun r => r.id == existing.id))
  | none =>
    let nr := newRecord input callerId freshId now
    (db ++ [nr], some nr)

/-- One call in a sequence of `mark_attendance` calls for a fixed triple:
the call's `status`/`remarks`, the caller id, the fresh id the environment
would hand the create branch, and the clock value. -/
structure MarkCall where
  status : String
  remarks : Option String
  callerId : String
  freshId : String
  now : Nat
deriving DecidableEq, Repr

/-- Sequential execution of `mark_attendance` calls for the fixed triple
`(s, c, d)`, threading the attendance collection state. -/
def markSeq (s c d : String) : List MarkCall → List AttendanceRecord → List AttendanceRecord
  | [], db => db
  | call :: rest, db =>
    markSeq s c d rest
      (mark_attendance db ⟨s, c, d, call.status, call.remarks⟩
        call.callerId call.freshId call.now).1

/-- Effect of a list of calls on the single record holding the triple:
each call overwrites `status`/`remarks`/`marked_by`/`updated_at` in place. -/
def applyCalls (s c d : String) : List MarkCall → AttendanceRecord → AttendanceRecord
  | [], r => r
  | call :: rest, r =>
    applyCalls s c d rest
      (applyMark ⟨s, c, d, call.status, call.remarks⟩ call.callerId call.now r)

/-- Last element of `c0 :: rest`. -/
def lastOf {α : Type} (c0 : α) : List α → α
  | [] => c0
  | c :: rest => lastOf c rest

/-- One loosely-typed entry of `bulk_input.attendance_records`: a dict that
may or may not carry the `student_id` and `status` keys (`remarks` is read
with `.get`, so it is optional by design). -/
structure BulkRecord where
  student_id : Option String
  status : Option String
  remarks : Option String
deriving DecidableEq, Repr

/-- One entry of the `results` list of `mark_bulk_attendance`. -/
structure BulkResult where
  student_id : String
  action : String
deriving DecidableEq, Repr

/-- Upsert performed for one well-formed bulk entry, mirroring the body of
the loop in `mark_bulk_attendance`: the same find-then-update-or-insert
sequence as `mark_attendance`, together with the `action` string recorded
in the result entry. -/
def bulkStep (class_id date callerId : String) (now : Nat)
    (db : List AttendanceRecord) (sid st : String) (rem : Option String)
    (fid : String) : List AttendanceRecord × String :=
  match db.find? (tripleMatchI ⟨sid, class_id, date, st, rem⟩) with
  | some existing =>
    (updateFirst (fun r => r.id == existing.id)
      (applyMark ⟨sid, class_id, date, st, rem⟩ callerId now) db, "updated")
  | none =>
    (db ++ [newRecord ⟨sid, class_id, date, st, rem⟩ callerId fid now], "created")

/-- Loop of `mark_bulk_attendance`: each input entry is paired with the
fresh id the environment would hand its create branch.  A missing
`student_id` or `status` key raises `KeyError`, which surfaces as an
HTTP 500; documents written by earlier iterations stay written. -/
def mark_bulk_go (class_id date callerId : String) (now : Nat) :
    List (BulkRecord × String) → List AttendanceRecord →
    List AttendanceRecord × Except HTTPException (List BulkResult)
  | [], db => (db, .ok [])
  | (rec, fid) :: rest, db =>
    match rec.student_id, rec.status with
    | some sid, some st =>
      let s := bulkStep class_id date callerId now db sid st rec.remarks fid
      let r := mark_bulk_go class_id date callerId now rest s.1
      (r.1, r.2.map (fun l => ⟨sid, s.2⟩ :: l))
    | _, _ => (db, .error ⟨500, "KeyError"⟩)

/-- `POST /attendance/bulk` (`mark_bulk_attendance`). -/
def mark_bulk_attendance (db : List AttendanceRecord) (class_id date : String)
    (records : List (BulkRecord × String)) (callerId : String) (now : Nat) :
    List AttendanceRecord × Except HTTPException (List BulkResult) :=
  mark_bulk_go class_id date callerId now records db

/-- Python truthiness of an optional query parameter: absent and the empty
string are both falsy. -/
def truthy : Option String → Bool
  | some s => !s.isEmpty
  | none => false

/-- Date constraint placed in the Mongo query dict by `get_attendance`. -/
inductive DateFilter where
  | noneF : DateFilter
  | exact : String → DateFilter
  | range : String → String → DateFilter
deriving DecidableEq, Repr

/-- Date part of the query dict: `if date: ... elif start_date and
end_date: ...` — the exact date wins, a lone bound contributes nothing. -/
def buildDateFilter (date start_date end_date : Option String) : DateFilter :=
  if truthy date then .exact (date.getD "")
  else if truthy start_date && truthy end_date then
    .range (start_date.getD "") (end_date.getD "")
  else .noneF

/-- Evaluation of the date constraint on one document. -/
def matchesDate (df : DateFilter) (r : AttendanceRecord) : Bool :=
  match df with
  | .noneF => true
  | .exact d => r.date == d
  | .range lo hi => strLe lo r.date && strLe r.date hi

/-- Evaluation of the full query dict built by `get_attendance` on one
document: equality filters for truthy `class_id`/`student_id` plus the
date constraint. -/
def matchesQuery (class_id student_id : Option String) (df : DateFilter)
    (r : AttendanceRecord) : Bool :=
  (!truthy class_id || r.class_id == class_id.getD "") &&
  (!truthy student_id || r.student_id == student_id.getD "") &&
  matchesDate df r

/-- `GET /attendance` (`get_attendance`): find all documents matching the
query dict assembled from the optional parameters. -/
def get_attendance (db : List AttendanceRecord)
    (class_id student_id date start_date end_date : Option String) :
    List AttendanceRecord :=
  db.filter (matchesQuery class_id student_id (buildDateFilter date start_date end_date))

/-- Attendance fetch of `get_attendance_report`: documents of the class
whose date lies in the inclusive range. -/
def reportRecords (att : List AttendanceRecord) (class_id start_date end_date : String) :
    List AttendanceRecord :=
  att.filter (fun r => r.class_id == class_id && strLe start_date r.date && strLe r.date end_date)

/-- Python `round(x, 2)` over `ℚ`: round to two decimal places. -/
def round2 (q : ℚ) : ℚ := (round (q * 100) : ℚ) / 100

/-- One row of the report, mirroring the dict appended to `report`. -/
structure StudentStat where
  student_id : String
  student_name : String
  roll_number : String
  total_days : Nat
  present : Nat
  absent : Nat
  late : Nat
  attendance_percentage : ℚ
deriving DecidableEq, Repr

/-- Response of `GET /attendance/report`. -/
structure Report where
  class_id : String
  start_date : String
  end_date : String
  report : List StudentStat
deriving DecidableEq, Repr

/-- Loop body of `get_attendance_report` for one student: the student's own
records, the class-wide distinct-date denominator, the per-status counts
and the rounded percentage (0 when `total_days = 0`). -/
def studentStat (records : List AttendanceRecord) (student : Student) : StudentStat :=
  let student_attendance := records.filter (fun r => r.student_id == student.id)
  let total_days := (records.map (fun r => r.date)).dedup.length
  let present_count := (student_attendance.filter (fun r => r.status == "present")).length
  let absent_count := (student_attendance.filter (fun r => r.status == "absent")).length
  let late_count := (student_attendance.filter (fun r => r.status == "late")).length
  let attendance_percentage : ℚ :=
    if 0 < total_days then (present_count : ℚ) / (total_days : ℚ) * 100 else 0
  { student_id := student.id
    student_name := student.name
    roll_number := student.roll_number
    total_days := total_days
    present := present_count
    absent := absent_count
    late := late_count
    attendance_percentage := round2 attendance_percentage }

/-- `GET /attendance/report` (`get_attendance_report`): fetch the class
roster and the class's records in range, then build one row per student. -/
def get_attendance_report (students : List Student) (att : List AttendanceRecord)
    (class_id start_date end_date : String) : Report :=
  let classStudents := students.filter (fun s => s.class_id == class_id)
  let records := reportRecords att class_id start_date end_date
  { class_id := class_id
    start_date := start_date
    end_date := end_date
    report := classStudents.map (studentStat records) }

/-- Specification-side count used to state C3: the number of records of
student `sid` carrying status `status` in `rs`. -/
def countStatus (rs : List AttendanceRecord) (sid status : String) : Nat :=
  (rs.filter (fun r => r.student_id == sid && r.status == status)).length

/-- `PUT /classes/{class_id}` (`update_class`): 404 when the class is
absent, then 403 for a non-admin caller who does not own it, otherwise
patch the document and re-fetch it. -/
def update_class (classes : List ClassRec) (class_id : String)
    (input : ClassCreateInput) (current_user : UserT) :
    Except HTTPException (List ClassRec × Option ClassRec) :=
  match classes.find? (fun c => c.id == class_id) with
  | none => .error ⟨404, "Class not found"⟩
  | some existing =>
    if current_user.role != "admin" && existing.teacher_id != current_user.id then
      .error ⟨403, "Not authorized to update this class"⟩
    else
      let updated := updateFirst (fun c => c.id == class_id)
        (fun c => { c with
          name := input.name
          sectionName := input.sectionName
          subject := input.subject }) classes
      .ok (updated, updated.find? (fun c => c.id == class_id))

/-- `DELETE /classes/{class_id}` (`delete_class`): 404 when the class is
absent, then 403 for a non-admin caller who does not own it, otherwise
delete the document (a vacuous second 404 guards a zero deleted count). -/
def delete_class (classes : List ClassRec) (class_id : String)
    (current_user : UserT) :
    Except HTTPException (List ClassRec × String) :=
  match classes.find? (fun c => c.id == class_id) with
  | none => .error ⟨404, "Class not found"⟩
  | some existing =>
    if current_user.role != "admin" && existing.teacher_id != current_user.id then
      .error ⟨403, "Not authorized to delete this class"⟩
    else
      let res := deleteFirst (fun c => c.id == class_id) classes
      if res.2 == 0 then .error ⟨404, "Class not found"⟩
      else .ok (res.1, "Class deleted successfully")

/-! Helper lemmas about `find?`, `filter` and `updateFirst`. -/

/-- A filter returning a singleton pins down `find?`. -/
theorem find?_of_filter_singleton {α : Type} (p : α → Bool) :
    ∀ (l : List α) (r : α), l.filter p = [r] → l.find? p = some r := by
  intro l
  induction l with
  | nil => intro r h; simp at h
  | cons x xs ih =>
    intro r h
    by_cases hpx : p x = true
    · rw [List.filter_cons_of_pos hpx] at h
      obtain ⟨rfl, -⟩ := List.cons.injEq .. ▸ h
      exact List.find?_cons_of_pos _ hpx
    · rw [List.filter_cons_of_neg hpx] at h
      rw [List.find?_cons_of_neg _ (by simpa using hpx)]
      exact ih r h

/-- Patching one element does not change any quantity it preserves. -/
theorem updateFirst_map {α β : Type} (p : α → Bool) (f : α → α) (g : α → β)
    (hg : ∀ x, g (f x) = g x) :
    ∀ l : List α, (updateFirst p f l).map g = l.map g := by
  intro l
  induction l with
  | nil => rfl
  | cons x xs ih =>
    by_cases hpx : p x = true
    · simp [updateFirst, hpx, hg]
    · simp [updateFirst, hpx, ih]

/-- Patching by id the unique record matching a filter, in a collection with
pairwise-distinct ids, yields the same filter with the record patched. -/
theorem filter_updateFirst_id (p : AttendanceRecord → Bool)
    (f : AttendanceRecord → AttendanceRecord) (r : AttendanceRecord)
    (hfr : p (f r) = true) :
    ∀ l : List AttendanceRecord, l.filter p = [r] →
    (l.map (fun x => x.id)).Nodup →
    (updateFirst (fun x => x.id == r.id) f l).filter p = [f r] := by
  intro l
  induction l with
  | nil => intro h _; simp at h
  | cons x xs ih =>
    intro hfil hnd
    by_cases hpx : p x = true
    · rw [List.filter_cons_of_pos hpx] at hfil
      obtain ⟨rfl, hxs⟩ := List.cons.injEq .. ▸ hfil
      rw [show updateFirst (fun y => y.id == x.id) f (x :: xs) = f x :: xs by
        simp [updateFirst]]
      rw [List.filter_cons_of_pos hfr, hxs]
    · rw [List.filter_cons_of_neg hpx] at hfil
      have hrmem : r ∈ xs := by
        have : r ∈ xs.filter p := by rw [hfil]; exact List.mem_singleton.mpr rfl
        exact List.mem_of_mem_filter this
      have hxid : (x.id == r.id) = false := by
        rw [List.map_cons, List.nodup_cons] at hnd
        refine beq_eq_false_iff_ne.mpr fun hEq => hnd.1 ?_
        rw [hEq]
        exact List.mem_map.mpr ⟨r, hrmem, rfl⟩
      rw [show updateFirst (fun y => y.id == r.id) f (x :: xs)
            = x :: updateFirst (fun y => y.id == r.id) f xs by
        simp [updateFirst, hxid]]
      rw [List.filter_cons_of_neg hpx]
      exact ih hfil (by rw [List.map_cons, List.nodup_cons] at hnd; exact hnd.2)

/-- Update branch of `mark_attendance`, seen through the triple filter: the
unique record holding the triple is overwritten in place and ids persist. -/
theorem mark_attendance_update_state (s c d st : String) (rem : Option String)
    (caller fid : String) (now : Nat) (db : List AttendanceRecord)
    (r : AttendanceRecord)
    (hf : db.filter (tripleMatch s c d) = [r])
    (hnd : (db.map (fun x => x.id)).Nodup) :
    (mark_attendance db ⟨s, c, d, st, rem⟩ caller fid now).1.filter (tripleMatch s c d)
        = [applyMark ⟨s, c, d, st, rem⟩ caller now r] ∧
    (mark_attendance db ⟨s, c, d, st, rem⟩ caller fid now).1.map (fun x => x.id)
        = db.map (fun x => x.id) := by
  have hfind : db.find? (tripleMatchI ⟨s, c, d, st, rem⟩) = some r :=
    find?_of_filter_singleton _ db r hf
  have hid : ∀ x, (applyMark ⟨s, c, d, st, rem⟩ caller now x).id = x.id := fun _ => rfl
  have hfr : tripleMatch s c d (applyMark ⟨s, c, d, st, rem⟩ caller now r) = true := by
    simp [tripleMatch, applyMark]
  constructor
  · show (mark_attendance db ⟨s, c, d, st, rem⟩ caller fid now).1.filter (tripleMatch s c d) = _
    rw [mark_attendance, hfind]
    exact filter_updateFirst_id _ _ r hfr db hf hnd
  · rw [mark_attendance, hfind]
    exact updateFirst_map _ _ _ hid db

/-- Create branch of `mark_attendance`: with no record holding the triple,
the call appends a fresh document. -/
theorem mark_attendance_create (s c d st : String) (rem : Option String)
    (caller fid : String) (now : Nat) (db : List AttendanceRecord)
    (hf : db.filter (tripleMatch s c d) = []) :
    (mark_attendance db ⟨s, c, d, st, rem⟩ caller fid now).1
      = db ++ [newRecord ⟨s, c, d, st, rem⟩ caller fid now] := by
  have hfind : db.find? (tripleMatchI ⟨s, c, d, st, rem⟩) = none :=
    List.find?_eq_none.mpr (by
      intro x hx
      have := List.filter_eq_nil_iff.mp hf x hx
      simpa [tripleMatchI] using this)
  rw [mark_attendance, hfind]

/-- Invariant of the call sequence: starting from a state whose triple
filter is the singleton `[r]` and whose ids are pairwise distinct, the
final triple filter is the singleton holding `r` with every call's
overwrite applied, and the id multiset is unchanged. -/
theorem markSeq_filter (s c d : String) :
    ∀ (calls : List MarkCall) (db : List AttendanceRecord) (r : AttendanceRecord),
    db.filter (tripleMatch s c d) = [r] →
    (db.map (fun x => x.id)).Nodup →
    (markSeq s c d calls db).filter (tripleMatch s c d) = [applyCalls s c d calls r] ∧
    (markSeq s c d calls db).map (fun x => x.id) = db.map (fun x => x.id) := by
  intro calls
  induction calls with
  | nil => intro db r hf _; exact ⟨hf, rfl⟩
  | cons call rest ih =>
    intro db r hf hnd
    have hstep := mark_attendance_update_state s c d call.status call.remarks
      call.callerId call.freshId call.now db r hf hnd
    have hnd1 : (((mark_attendance db ⟨s, c, d, call.status, call.remarks⟩
        call.callerId call.freshId call.now).1).map (fun x => x.id)).Nodup := by
      rw [hstep.2]; exact hnd
    have := ih _ _ hstep.1 hnd1
    exact ⟨this.1, this.2.trans hstep.2⟩

/-- Overwrites never touch `id` or `created_at`. -/
theorem applyCalls_id_created (s c d : String) :
    ∀ (calls : List MarkCall) (r : AttendanceRecord),
    (applyCalls s c d calls r).id = r.id ∧
    (applyCalls s c d calls r).created_at = r.created_at := by
  intro calls
  induction calls with
  | nil => intro r; exact ⟨rfl, rfl⟩
  | cons call rest ih => intro r; exact ih _

/-- After at least one overwrite, the mutable fields come from the last
call applied. -/
theorem applyCalls_last_fields (s c d : String) :
    ∀ (rest : List MarkCall) (c0 : MarkCall) (r : AttendanceRecord),
    (applyCalls s c d (c0 :: rest) r).status = (lastOf c0 rest).status ∧
    (applyCalls s c d (c0 :: rest) r).remarks = (lastOf c0 rest).remarks ∧
    (applyCalls s c d (c0 :: rest) r).marked_by = (lastOf c0 rest).callerId := by
  intro rest
  induction rest with
  | nil => intro c0 r; exact ⟨rfl, rfl, rfl⟩
  | cons c1 rest' ih => intro c0 r; exact ih c1 _

/-- C1: for every triple `(s, c, d)`, after any sequence of `markOne`
calls for that triple run against a collection with pairwise-distinct ids
and no prior record for the triple, exactly one record holds the triple;
its `status`/`remarks`/`marked_by` are those of the most recent call, and
its `id` and `created_at` are the fresh id and clock of the first call. -/
theorem markOne_triple_uniqueness (s c d : String) (db : List AttendanceRecord)
    (c0 : MarkCall) (rest : List MarkCall)
    (h1 : db.filter (tripleMatch s c d) = [])
    (h2 : (db.map (fun x => x.id)).Nodup)
    (h3 : c0.freshId ∉ db.map (fun x => x.id)) :
    ∃ r, (markSeq s c d (c0 :: rest) db).filter (tripleMatch s c d) = [r] ∧
      r.status = (lastOf c0 rest).status ∧
      r.remarks = (lastOf c0 rest).remarks ∧
      r.marked_by = (lastOf c0 rest).callerId ∧
      r.id = c0.freshId ∧
      r.created_at = c0.now := by
  set nr := newRecord ⟨s, c, d, c0.status, c0.remarks⟩ c0.callerId c0.freshId c0.now with hnr
  have hdb1 : (mark_attendance db ⟨s, c, d, c0.status, c0.remarks⟩
      c0.callerId c0.freshId c0.now).1 = db ++ [nr] :=
    mark_attendance_create s c d c0.status c0.remarks c0.callerId c0.freshId c0.now db h1
  have hfil1 : (db ++ [nr]).filter (tripleMatch s c d) = [nr] := by
    rw [List.filter_append, h1]
    simp [hnr, tripleMatch, newRecord]
  have hnd1 : ((db ++ [nr]).map (fun x => x.id)).Nodup := by
    rw [List.map_append]
    simp only [List.map_cons, List.map_nil]
    rw [List.nodup_append]
    refine ⟨h2, List.nodup_singleton _, ?_⟩
    intro a ha hb
    rw [List.mem_singleton] at hb
    subst hb
    exact h3 ha
  have hmain := markSeq_filter s c d rest (db ++ [nr]) nr hfil1 hnd1
  refine ⟨applyCalls s c d rest nr, ?_, ?_, ?_, ?_, ?_, ?_⟩
  · show (markSeq s c d (c0 :: rest) db).filter (tripleMatch s c d) = _
    rw [markSeq, hdb1]
    exact hmain.1
  · cases rest with
    | nil => rfl
    | cons c1 rest' => exact (applyCalls_last_fields s c d rest' c1 nr).1
  · cases rest with
    | nil => rfl
    | cons c1 rest' => exact (applyCalls_last_fields s c d rest' c1 nr).2.1
  · cases rest with
    | nil => rfl
    | cons c1 rest' => exact (applyCalls_last_fields s c d rest' c1 nr).2.2
  · exact (applyCalls_id_created s c d rest nr).1
  · exact (applyCalls_id_created s c d rest nr).2

/-- C1 witness: two calls on the triple `("s1", "c1", "2024-01-05")`
starting from the empty collection. -/
theorem markOne_triple_uniqueness_witness :
    ∃ r, (markSeq "s1" "c1" "2024-01-05"
        [⟨"present", none, "t1", "id1", 10⟩, ⟨"late", some "x", "t2", "id2", 20⟩]
        []).filter (tripleMatch "s1" "c1" "2024-01-05") = [r] ∧
      r.status = "late" ∧ r.remarks = some "x" ∧ r.marked_by = "t2" ∧
      r.id = "id1" ∧ r.created_at = 10 :=
  markOne_triple_uniqueness "s1" "c1" "2024-01-05" []
    ⟨"present", none, "t1", "id1", 10⟩ [⟨"late", some "x", "t2", "id2", 20⟩]
    rfl (by simp) (by simp)

/-- C2: every row of the report carries the same `total_days`, namely the
number of distinct dates appearing anywhere in the fetched attendance set
for the class — a class-wide denominator — and it is nonzero as soon as any
record was fetched, even for a student absent every day. -/
theorem report_totalDays_classwide (students : List Student)
    (att : List AttendanceRecord) (cid sd ed : String) (stat : StudentStat)
    (h : stat ∈ (get_attendance_report students att cid sd ed).report) :
    stat.total_days = ((reportRecords att cid sd ed).map (fun r => r.date)).dedup.length ∧
    (reportRecords att cid sd ed ≠ [] → 0 < stat.total_days) := by
  simp only [get_attendance_report] at h
  obtain ⟨st, -, rfl⟩ := List.mem_map.mp h
  refine ⟨rfl, fun hne => ?_⟩
  show 0 < ((reportRecords att cid sd ed).map (fun r => r.date)).dedup.length
  rw [List.length_pos]
  intro hdnil
  exact hne (by simpa using (List.dedup_eq_nil _).mp hdnil)

/-- C2 witness: a two-student class with records on three distinct dates,
where student `s2` has no record at all yet sees the class-wide
denominator. -/
theorem report_totalDays_classwide_witness :
    (studentStat (reportRecords
        [⟨"idA", "s1", "c1", "2024-01-01", "present", "t", none, 0, 0⟩,
         ⟨"idB", "s1", "c1", "2024-01-02", "present", "t", none, 0, 0⟩,
         ⟨"idC", "s1", "c1", "2024-01-03", "absent", "t", none, 0, 0⟩]
        "c1" "2024-01-01" "2024-01-31") ⟨"s2", "B", "2", "c1"⟩).total_days
        = (((reportRecords
            [⟨"idA", "s1", "c1", "2024-01-01", "present", "t", none, 0, 0⟩,
             ⟨"idB", "s1", "c1", "2024-01-02", "present", "t", none, 0, 0⟩,
             ⟨"idC", "s1", "c1", "2024-01-03", "absent", "t", none, 0, 0⟩]
            "c1" "2024-01-01" "2024-01-31").map (fun r => r.date)).dedup).length ∧
    (reportRecords
        [⟨"idA", "s1", "c1", "2024-01-01", "present", "t", none, 0, 0⟩,
         ⟨"idB", "s1", "c1", "2024-01-02", "present", "t", none, 0, 0⟩,
         ⟨"idC", "s1", "c1", "2024-01-03", "absent", "t", none, 0, 0⟩]
        "c1" "2024-01-01" "2024-01-31" ≠ [] →
      0 < (studentStat (reportRecords
          [⟨"idA", "s1", "c1", "2024-01-01", "present", "t", none, 0, 0⟩,
           ⟨"idB", "s1", "c1", "2024-01-02", "present", "t", none, 0, 0⟩,
           ⟨"idC", "s1", "c1", "2024-01-03", "absent", "t", none, 0, 0⟩]
          "c1" "2024-01-01" "2024-01-31") ⟨"s2", "B", "2", "c1"⟩).total_days) :=
  report_totalDays_classwide
    [⟨"s1", "A", "1", "c1"⟩, ⟨"s2", "B", "2", "c1"⟩]
    [⟨"idA", "s1", "c1", "2024-01-01", "present", "t", none, 0, 0⟩,
     ⟨"idB", "s1", "c1", "2024-01-02", "present", "t", none, 0, 0⟩,
     ⟨"idC", "s1", "c1", "2024-01-03", "absent", "t", none, 0, 0⟩]
    "c1" "2024-01-01" "2024-01-31" _
    (List.mem_map_of_mem _ (by decide))

/-- C3: every row of the report counts the student's own records per status
value, and the percentage is `present / total_days * 100` rounded to two
decimals when `total_days > 0` and `0` when `total_days = 0`. -/
theorem report_per_student_counts (students : List Student)
    (att : List AttendanceRecord) (cid sd ed : String) (stat : StudentStat)
    (h : stat ∈ (get_attendance_report students att cid sd ed).report) :
    ∃ st, st ∈ students ∧ st.class_id = cid ∧ stat.student_id = st.id ∧
      stat.present = countStatus (reportRecords att cid sd ed) st.id "present" ∧
      stat.absent = countStatus (reportRecords att cid sd ed) st.id "absent" ∧
      stat.late = countStatus (reportRecords att cid sd ed) st.id "late" ∧
      stat.attendance_percentage =
        (if 0 < stat.total_days
          then round2 ((stat.present : ℚ) / (stat.total_days : ℚ) * 100)
          else 0) := by
  simp only [get_attendance_report] at h
  obtain ⟨st, hst, rfl⟩ := List.mem_map.mp h
  obtain ⟨hmem, hcid⟩ := List.mem_filter.mp hst
  have hcount : ∀ status : String,
      (((reportRecords att cid sd ed).filter (fun r => r.student_id == st.id)).filter
          (fun r => r.status == status)).length
        = countStatus (reportRecords att cid sd ed) st.id status := by
    intro status
    rw [List.filter_filter]
    unfold countStatus
    congr 1
    apply List.filter_congr
    intro x _
    exact Bool.and_comm _ _
  refine ⟨st, hmem, by simpa using hcid, rfl, hcount "present", hcount "absent",
    hcount "late", ?_⟩
  show round2 _ = _
  by_cases htd : 0 < (studentStat (reportRecords att cid sd ed) st).total_days
  · rw [if_pos htd]
    have : (0 : Nat) <
        ((reportRecords att cid sd ed).map (fun r => r.date)).dedup.length := htd
    simp only [studentStat, if_pos this]
  · rw [if_neg htd]
    have : ¬ (0 : Nat) <
        ((reportRecords att cid sd ed).map (fun r => r.date)).dedup.length := htd
    simp only [studentStat, if_neg this]
    simp [round2]

/-- C3 witness: a one-student class over two distinct dates. -/
theorem report_per_student_counts_witness :
    ∃ st, st ∈ [(⟨"s1", "A", "1", "c1"⟩ : Student)] ∧ st.class_id = "c1" ∧
      (studentStat (reportRecords
          [⟨"idA", "s1", "c1", "2024-01-01", "present", "t", none, 0, 0⟩,
           ⟨"idB", "s1", "c1", "2024-01-02", "absent", "t", none, 0, 0⟩]
          "c1" "2024-01-01" "2024-01-31") ⟨"s1", "A", "1", "c1"⟩).student_id = st.id ∧
      (studentStat (reportRecords
          [⟨"idA", "s1", "c1", "2024-01-01", "present", "t", none, 0, 0⟩,
           ⟨"idB", "s1", "c1", "2024-01-02", "absent", "t", none, 0, 0⟩]
          "c1" "2024-01-01" "2024-01-31") ⟨"s1", "A", "1", "c1"⟩).present
        = countStatus (reportRecords
            [⟨"idA", "s1", "c1", "2024-01-01", "present", "t", none, 0, 0⟩,
             ⟨"idB", "s1", "c1", "2024-01-02", "absent", "t", none, 0, 0⟩]
            "c1" "2024-01-01" "2024-01-31") st.id "present" ∧
      (studentStat (reportRecords
          [⟨"idA", "s1", "c1", "2024-01-01", "present", "t", none, 0, 0⟩,
           ⟨"idB", "s1", "c1", "2024-01-02", "absent", "t", none, 0, 0⟩]
          "c1" "2024-01-01" "2024-01-31") ⟨"s1", "A", "1", "c1"⟩).absent
        = countStatus (reportRecords
            [⟨"idA", "s1", "c1", "2024-01-01", "present", "t", none, 0, 0⟩,
             ⟨"idB", "s1", "c1", "2024-01-02", "absent", "t", none, 0, 0⟩]
            "c1" "2024-01-01" "2024-01-31") st.id "absent" ∧
      (studentStat (reportRecords
          [⟨"idA", "s1", "c1", "2024-01-01", "present", "t", none, 0, 0⟩,
           ⟨"idB", "s1", "c1", "2024-01-02", "absent", "t", none, 0, 0⟩]
          "c1" "2024-01-01" "2024-01-31") ⟨"s1", "A", "1", "c1"⟩).late
        = countStatus (reportRecords
            [⟨"idA", "s1", "c1", "2024-01-01", "present", "t", none, 0, 0⟩,
             ⟨"idB", "s1", "c1", "2024-01-02", "absent", "t", none, 0, 0⟩]
            "c1" "2024-01-01" "2024-01-31") st.id "late" ∧
      (studentStat (reportRecords
          [⟨"idA", "s1", "c1", "2024-01-01", "present", "t", none, 0, 0⟩,
           ⟨"idB", "s1", "c1", "2024-01-02", "absent", "t", none, 0, 0⟩]
          "c1" "2024-01-01" "2024-01-31") ⟨"s1", "A", "1", "c1"⟩).attendance_percentage =
        (if 0 < (studentStat (reportRecords
              [⟨"idA", "s1", "c1", "2024-01-01", "present", "t", none, 0, 0⟩,
               ⟨"idB", "s1", "c1", "2024-01-02", "absent", "t", none, 0, 0⟩]
              "c1" "2024-01-01" "2024-01-31") ⟨"s1", "A", "1", "c1"⟩).total_days
          then round2
            (((studentStat (reportRecords
                [⟨"idA", "s1", "c1", "2024-01-01", "present", "t", none, 0, 0⟩,
                 ⟨"idB", "s1", "c1", "2024-01-02", "absent", "t", none, 0, 0⟩]
                "c1" "2024-01-01" "2024-01-31") ⟨"s1", "A", "1", "c1"⟩).present : ℚ)
              / ((studentStat (reportRecords
                  [⟨"idA", "s1", "c1", "2024-01-01", "present", "t", none, 0, 0⟩,
                   ⟨"idB", "s1", "c1", "2024-01-02", "absent", "t", none, 0, 0⟩]
                  "c1" "2024-01-01" "2024-01-31") ⟨"s1", "A", "1", "c1"⟩).total_days : ℚ)
              * 100)
          else 0) :=
  report_per_student_counts [⟨"s1", "A", "1", "c1"⟩]
    [⟨"idA", "s1", "c1", "2024-01-01", "present", "t", none, 0, 0⟩,
     ⟨"idB", "s1", "c1", "2024-01-02", "absent", "t", none, 0, 0⟩]
    "c1" "2024-01-01" "2024-01-31" _
    (List.mem_map_of_mem _ (by decide))

/-- C4: every student of the class has a row in the report, and a student
with no fetched record in range has zero `present`/`absent`/`late`. -/
theorem report_includes_recordless_students (students : List Student)
    (att : List AttendanceRecord) (cid sd ed : String) (st : Student)
    (h1 : st ∈ students) (h2 : st.class_id = cid) :
    ∃ stat, stat ∈ (get_attendance_report students att cid sd ed).report ∧
      stat.student_id = st.id ∧
      ((reportRecords att cid sd ed).filter (fun r => r.student_id == st.id) = [] →
        stat.present = 0 ∧ stat.absent = 0 ∧ stat.late = 0) := by
  refine ⟨studentStat (reportRecords att cid sd ed) st, ?_, rfl, ?_⟩
  · simp only [get_attendance_report]
    exact List.mem_map_of_mem _ (List.mem_filter.mpr ⟨h1, by simp [h2]⟩)
  · intro hempty
    refine ⟨?_, ?_, ?_⟩ <;> simp [studentStat, hempty]

/-- C4 witness: student `s2` of class `c1` has no record in range yet
appears in the report with zero counts. -/
theorem report_includes_recordless_students_witness :
    ∃ stat, stat ∈ (get_attendance_report
        [⟨"s1", "A", "1", "c1"⟩, ⟨"s2", "B", "2", "c1"⟩]
        [⟨"idA", "s1", "c1", "2024-01-01", "present", "t", none, 0, 0⟩]
        "c1" "2024-01-01" "2024-01-31").report ∧
      stat.student_id = "s2" ∧
      ((reportRecords [⟨"idA", "s1", "c1", "2024-01-01", "present", "t", none, 0, 0⟩]
          "c1" "2024-01-01" "2024-01-31").filter (fun r => r.student_id == "s2") = [] →
        stat.present = 0 ∧ stat.absent = 0 ∧ stat.late = 0) :=
  report_includes_recordless_students
    [⟨"s1", "A", "1", "c1"⟩, ⟨"s2", "B", "2", "c1"⟩]
    [⟨"idA", "s1", "c1", "2024-01-01", "present", "t", none, 0, 0⟩]
    "c1" "2024-01-01" "2024-01-31" ⟨"s2", "B", "2", "c1"⟩ (by decide) rfl

/-- Unfolding of the query dict evaluation into its three conjuncts. -/
theorem matchesQuery_eq_true_iff (cid sid : Option String) (df : DateFilter)
    (r : AttendanceRecord) :
    matchesQuery cid sid df r = true ↔
      ((truthy cid = true → r.class_id = cid.getD "") ∧
       (truthy sid = true → r.student_id = sid.getD "") ∧
       matchesDate df r = true) := by
  unfold matchesQuery
  cases hc : truthy cid <;> cases hs : truthy sid <;> simp [hc, hs, and_assoc]

/-- C6: when a truthy exact `date` is supplied together with any range
bounds, the range is ignored — the result is identical to the call without
bounds, and consists exactly of the stored records with that date that pass
the `class_id`/`student_id` filters. -/
theorem query_exact_date_precedence (db : List AttendanceRecord)
    (class_id student_id date start_date end_date : Option String)
    (h : truthy date = true) :
    get_attendance db class_id student_id date start_date end_date
      = get_attendance db class_id student_id date none none ∧
    ∀ r, r ∈ get_attendance db class_id student_id date start_date end_date ↔
      (r ∈ db ∧ (truthy class_id = true → r.class_id = class_id.getD "") ∧
       (truthy student_id = true → r.student_id = student_id.getD "") ∧
       r.date = date.getD "") := by
  have hbd : buildDateFilter date start_date end_date = .exact (date.getD "") := by
    rw [buildDateFilter, if_pos h]
  have hbd' : buildDateFilter date none none = .exact (date.getD "") := by
    rw [buildDateFilter, if_pos h]
  constructor
  · rw [get_attendance, get_attendance, hbd, hbd']
  · intro r
    rw [get_attendance, hbd, List.mem_filter, matchesQuery_eq_true_iff]
    simp [matchesDate, and_assoc]

/-- C6 witness: an exact date together with a range that excludes it. -/
theorem query_exact_date_precedence_witness :
    get_attendance
        [⟨"idA", "s1", "c1", "2024-01-05", "present", "t", none, 0, 0⟩,
         ⟨"idB", "s1", "c1", "2024-01-06", "absent", "t", none, 0, 0⟩]
        (some "c1") none (some "2024-01-05") (some "1900-01-01") (some "1900-01-02")
      = get_attendance
        [⟨"idA", "s1", "c1", "2024-01-05", "present", "t", none, 0, 0⟩,
         ⟨"idB", "s1", "c1", "2024-01-06", "absent", "t", none, 0, 0⟩]
        (some "c1") none (some "2024-01-05") none none ∧
    ∀ r, r ∈ get_attendance
        [⟨"idA", "s1", "c1", "2024-01-05", "present", "t", none, 0, 0⟩,
         ⟨"idB", "s1", "c1", "2024-01-06", "absent", "t", none, 0, 0⟩]
        (some "c1") none (some "2024-01-05") (some "1900-01-01") (some "1900-01-02") ↔
      (r ∈ [⟨"idA", "s1", "c1", "2024-01-05", "present", "t", none, 0, 0⟩,
            ⟨"idB", "s1", "c1", "2024-01-06", "absent", "t", none, 0, 0⟩] ∧
       (truthy (some "c1") = true → r.class_id = (some "c1").getD "") ∧
       (truthy none = true → r.student_id = (none : Option String).getD "") ∧
       r.date = (some "2024-01-05").getD "") :=
  query_exact_date_precedence
    [⟨"idA", "s1", "c1", "2024-01-05", "present", "t", none, 0, 0⟩,
     ⟨"idB", "s1", "c1", "2024-01-06", "absent", "t", none, 0, 0⟩]
    (some "c1") none (some "2024-01-05") (some "1900-01-01") (some "1900-01-02")
    (by decide)

/-- C10: with no truthy exact date and only one truthy range bound, no date
constraint is applied at all — the result equals the call with no date
parameters, so records of every date pass the remaining filters. -/
theorem query_lone_bound_ignored (db : List AttendanceRecord)
    (class_id student_id date start_date end_date : Option String)
    (h1 : truthy date = false)
    (h2 : truthy start_date = false ∨ truthy end_date = false) :
    get_attendance db class_id student_id date start_date end_date
      = get_attendance db class_id student_id none none none ∧
    ∀ r, r ∈ get_attendance db class_id student_id date start_date end_date ↔
      (r ∈ db ∧ (truthy class_id = true → r.class_id = class_id.getD "") ∧
       (truthy student_id = true → r.student_id = student_id.getD "")) := by
  have hbd : buildDateFilter date start_date end_date = .noneF := by
    rw [buildDateFilter, if_neg (by simp [h1])]
    rcases h2 with h2 | h2 <;> rw [if_neg (by simp [h2])]
  have hbd' : buildDateFilter none none none = .noneF := rfl
  constructor
  · rw [get_attendance, get_attendance, hbd, hbd']
  · intro r
    rw [get_attendance, hbd, List.mem_filter, matchesQuery_eq_true_iff]
    simp [matchesDate]

/-- C10 witness: a lone `start_date` bound that would exclude every record
if it were applied; both records of the class are still returned. -/
theorem query_lone_bound_ignored_witness :
    get_attendance
        [⟨"idA", "s1", "c1", "2024-01-05", "present", "t", none, 0, 0⟩,
         ⟨"idB", "s1", "c1", "2024-01-06", "absent", "t", none, 0, 0⟩]
        (some "c1") none none (some "2999-01-01") none
      = get_attendance
        [⟨"idA", "s1", "c1", "2024-01-05", "present", "t", none, 0, 0⟩,
         ⟨"idB", "s1", "c1", "2024-01-06", "absent", "t", none, 0, 0⟩]
        (some "c1") none none none none ∧
    ∀ r, r ∈ get_attendance
        [⟨"idA", "s1", "c1", "2024-01-05", "present", "t", none, 0, 0⟩,
         ⟨"idB", "s1", "c1", "2024-01-06", "absent", "t", none, 0, 0⟩]
        (some "c1") none none (some "2999-01-01") none ↔
      (r ∈ [⟨"idA", "s1", "c1", "2024-01-05", "present", "t", none, 0, 0⟩,
            ⟨"idB", "s1", "c1", "2024-01-06", "absent", "t", none, 0, 0⟩] ∧
       (truthy (some "c1") = true → r.class_id = (some "c1").getD "") ∧
       (truthy none = true → r.student_id = (none : Option String).getD "")) :=
  query_lone_bound_ignored
    [⟨"idA", "s1", "c1", "2024-01-05", "present", "t", none, 0, 0⟩,
     ⟨"idB", "s1", "c1", "2024-01-06", "absent", "t", none, 0, 0⟩]
    (some "c1") none none (some "2999-01-01") none
    (by decide) (Or.inr (by decide))

/-- Deleting after a successful `find?` removes exactly one document. -/
theorem deleteFirst_count_of_find? {α : Type} (p : α → Bool) :
    ∀ (l : List α) (x : α), l.find? p = some x → (deleteFirst p l).2 = 1 := by
  intro l
  induction l with
  | nil => intro x h; simp at h
  | cons y ys ih =>
    intro x h
    by_cases hpy : p y = true
    · simp [deleteFirst, hpy]
    · rw [List.find?_cons_of_neg _ (by simpa using hpy)] at h
      simp only [deleteFirst, if_neg hpy]
      exact ih x h

/-- C7: on class update and delete, an existing class not owned by a
`teacher` caller yields 403 Forbidden; an `admin` caller succeeds on any
existing class; and a missing class yields 404 Not Found for every caller,
the existence check coming before the ownership check. -/
theorem class_auth_checks (classes : List ClassRec) (class_id : String)
    (input : ClassCreateInput) (caller : UserT) :
    (∀ cls, classes.find? (fun c => c.id == class_id) = some cls →
      caller.role = "teacher" → cls.teacher_id ≠ caller.id →
      update_class classes class_id input caller
          = .error ⟨403, "Not authorized to update this class"⟩ ∧
      delete_class classes class_id caller
          = .error ⟨403, "Not authorized to delete this class"⟩) ∧
    (∀ cls, classes.find? (fun c => c.id == class_id) = some cls →
      caller.role = "admin" →
      (∃ res, update_class classes class_id input caller = .ok res) ∧
      (∃ res, delete_class classes class_id caller = .ok res)) ∧
    (classes.find? (fun c => c.id == class_id) = none →
      update_class classes class_id input caller = .error ⟨404, "Class not found"⟩ ∧
      delete_class classes class_id caller = .error ⟨404, "Class not found"⟩) := by
  refine ⟨?_, ?_, ?_⟩
  · intro cls hf hrole hown
    have hcond : (caller.role != "admin" && cls.teacher_id != caller.id) = true := by
      rw [hrole]
      simp [hown]
    constructor
    · simp only [update_class, hf]
      rw [if_pos hcond]
    · simp only [delete_class, hf]
      rw [if_pos hcond]
  · intro cls hf hrole
    have hcond : ¬ (caller.role != "admin" && cls.teacher_id != caller.id) = true := by
      rw [hrole]
      simp
    constructor
    · exact ⟨_, by simp only [update_class, hf]; rw [if_neg hcond]⟩
    · exact ⟨_, by
        simp only [delete_class, hf]
        rw [if_neg hcond, deleteFirst_count_of_find? _ classes cls hf,
          if_neg (by decide)]⟩
  · intro hf
    constructor
    · simp only [update_class, hf]
    · simp only [delete_class, hf]

/-- C7 witness: one class owned by `t1`; a foreign teacher gets 403 on both
operations, an admin succeeds on both, and a missing class id gets 404. -/
theorem class_auth_checks_witness :
    (update_class [⟨"c1", "n", "s", none, "t1"⟩] "c1" ⟨"n2", "s2", none⟩ ⟨"t2", "teacher"⟩
        = .error ⟨403, "Not authorized to update this class"⟩ ∧
     delete_class [⟨"c1", "n", "s", none, "t1"⟩] "c1" ⟨"t2", "teacher"⟩
        = .error ⟨403, "Not authorized to delete this class"⟩) ∧
    ((∃ res, update_class [⟨"c1", "n", "s", none, "t1"⟩] "c1" ⟨"n2", "s2", none⟩ ⟨"a1", "admin"⟩
        = .ok res) ∧
     (∃ res, delete_class [⟨"c1", "n", "s", none, "t1"⟩] "c1" ⟨"a1", "admin"⟩ = .ok res)) ∧
    (update_class [⟨"c1", "n", "s", none, "t1"⟩] "c9" ⟨"n2", "s2", none⟩ ⟨"t2", "teacher"⟩
        = .error ⟨404, "Class not found"⟩ ∧
     delete_class [⟨"c1", "n", "s", none, "t1"⟩] "c9" ⟨"t2", "teacher"⟩
        = .error ⟨404, "Class not found"⟩) :=
  ⟨(class_auth_checks [⟨"c1", "n", "s", none, "t1"⟩] "c1" ⟨"n2", "s2", none⟩
      ⟨"t2", "teacher"⟩).1 ⟨"c1", "n", "s", none, "t1"⟩ (by decide) rfl (by decide),
   (class_auth_checks [⟨"c1", "n", "s", none, "t1"⟩] "c1" ⟨"n2", "s2", none⟩
      ⟨"a1", "admin"⟩).2.1 ⟨"c1", "n", "s", none, "t1"⟩ (by decide) rfl,
   (class_auth_checks [⟨"c1", "n", "s", none, "t1"⟩] "c9" ⟨"n2", "s2", none⟩
      ⟨"t2", "teacher"⟩).2.2 (by decide)⟩

/-- Triple filter of a literal payload. -/
theorem tripleMatchI_mk (s c d st : String) (rem : Option String) :
    tripleMatchI ⟨s, c, d, st, rem⟩ = tripleMatch s c d := rfl

/-- State component of the bulk loop on a well-formed head entry. -/
theorem mark_bulk_go_cons_fst (cid d caller : String) (now : Nat)
    (rec : BulkRecord) (fid : String) (rest : List (BulkRecord × String))
    (db : List AttendanceRecord) (sid st : String)
    (hsid : rec.student_id = some sid) (hst : rec.status = some st) :
    (mark_bulk_go cid d caller now ((rec, fid) :: rest) db).1 =
      (mark_bulk_go cid d caller now rest
        (bulkStep cid d caller now db sid st rec.remarks fid).1).1 := by
  simp only [mark_bulk_go, hsid, hst]

/-- Result component of the bulk loop on a well-formed head entry. -/
theorem mark_bulk_go_cons_snd (cid d caller : String) (now : Nat)
    (rec : BulkRecord) (fid : String) (rest : List (BulkRecord × String))
    (db : List AttendanceRecord) (sid st : String)
    (hsid : rec.student_id = some sid) (hst : rec.status = some st) :
    (mark_bulk_go cid d caller now ((rec, fid) :: rest) db).2 =
      (mark_bulk_go cid d caller now rest
        (bulkStep cid d caller now db sid st rec.remarks fid).1).2.map
        (fun l => ⟨sid, (bulkStep cid d caller now db sid st rec.remarks fid).2⟩ :: l) := by
  simp only [mark_bulk_go, hsid, hst]

/-- Bulk loop on a malformed head entry: the iteration raises `KeyError`
and leaves the state as it stood. -/
theorem mark_bulk_go_cons_bad (cid d caller : String) (now : Nat)
    (rec : BulkRecord) (fid : String) (rest : List (BulkRecord × String))
    (db : List AttendanceRecord)
    (hb : rec.student_id = none ∨ rec.status = none) :
    mark_bulk_go cid d caller now ((rec, fid) :: rest) db
      = (db, .error ⟨500, "KeyError"⟩) := by
  rcases hb with hb | hb
  · simp only [mark_bulk_go, hb]
  · cases hsid : rec.student_id <;> simp only [mark_bulk_go, hsid, hb]

/-- Action string of one bulk upsert: `"created"` exactly when no record
held the triple, and nothing other than `"created"`/`"updated"`. -/
theorem bulkStep_action (cid d caller : String) (now : Nat)
    (db : List AttendanceRecord) (sid st : String) (rem : Option String)
    (fid : String) :
    ((bulkStep cid d caller now db sid st rem fid).2 = "created" ↔
      db.find? (tripleMatch sid cid d) = none) ∧
    ((bulkStep cid d caller now db sid st rem fid).2 = "created" ∨
      (bulkStep cid d caller now db sid st rem fid).2 = "updated") := by
  unfold bulkStep
  rw [tripleMatchI_mk]
  cases hf : db.find? (tripleMatch sid cid d) <;> simp [hf]

/-- Full specification of the bulk loop on well-formed input: it succeeds
with one result entry per input entry in order, each entry naming its
student and reporting `"created"` exactly when the state reached before
that entry held no record for the triple. -/
theorem mark_bulk_go_spec (cid d caller : String) (now : Nat) :
    ∀ (records : List (BulkRecord × String)) (db : List AttendanceRecord),
    (∀ p ∈ records, p.1.student_id.isSome ∧ p.1.status.isSome) →
    ∃ l, (mark_bulk_go cid d caller now records db).2 = Except.ok l ∧
      l.length = records.length ∧
      ∀ i (e : BulkResult) (q : BulkRecord × String),
        l[i]? = some e → records[i]? = some q →
        e.student_id = (q.1.student_id).getD "" ∧
        (e.action = "created" ↔
          (mark_bulk_go cid d caller now (records.take i) db).1.find?
            (tripleMatch ((q.1.student_id).getD "") cid d) = none) ∧
        (e.action = "created" ∨ e.action = "updated") := by
  intro records
  induction records with
  | nil =>
    intro db _
    exact ⟨[], rfl, rfl, fun i e q he => by simp at he⟩
  | cons p rest ih =>
    intro db hw
    obtain ⟨rec, fid⟩ := p
    obtain ⟨sid, hsid⟩ :=
      Option.isSome_iff_exists.mp (hw (rec, fid) (List.mem_cons_self _ _)).1
    obtain ⟨st, hst⟩ :=
      Option.isSome_iff_exists.mp (hw (rec, fid) (List.mem_cons_self _ _)).2
    obtain ⟨l', hok', hlen', hidx'⟩ :=
      ih (bulkStep cid d caller now db sid st rec.remarks fid).1
        (fun q hq => hw q (List.mem_cons_of_mem _ hq))
    refine ⟨⟨sid, (bulkStep cid d caller now db sid st rec.remarks fid).2⟩ :: l',
      ?_, by simpa using hlen', ?_⟩
    · rw [mark_bulk_go_cons_snd cid d caller now rec fid rest db sid st hsid hst, hok']
      rfl
    · intro i e q he hq
      cases i with
      | zero =>
        simp only [List.getElem?_cons_zero, Option.some.injEq] at he hq
        subst he
        subst hq
        have hact := bulkStep_action cid d caller now db sid st rec.remarks fid
        refine ⟨by rw [hsid]; rfl, ?_, hact.2⟩
        rw [hsid, List.take_zero]
        rw [show (mark_bulk_go cid d caller now [] db).1 = db from rfl]
        exact hact.1
      | succ j =>
        simp only [List.getElem?_cons_succ] at he hq
        have hmain := hidx' j e q he hq
        refine ⟨hmain.1, ?_, hmain.2.2⟩
        have hstate : (mark_bulk_go cid d caller now
              (((rec, fid) :: rest).take (j + 1)) db).1
            = (mark_bulk_go cid d caller now (rest.take j)
                (bulkStep cid d caller now db sid st rec.remarks fid).1).1 := by
          rw [List.take_succ_cons,
            mark_bulk_go_cons_fst cid d caller now rec fid (rest.take j) db sid st hsid hst]
        rw [hstate]
        exact hmain.2.1

/-- Whatever the input, the only error the bulk loop can produce is the
HTTP 500 surfaced from the missing-key `KeyError`. -/
theorem mark_bulk_go_error_code (cid d caller : String) (now : Nat) :
    ∀ (records : List (BulkRecord × String)) (db : List AttendanceRecord)
      (e : HTTPException),
    (mark_bulk_go cid d caller now records db).2 = Except.error e →
    e.status_code = 500 := by
  intro records
  induction records with
  | nil => intro db e h; exact absurd h (by simp [mark_bulk_go])
  | cons p rest ih =>
    intro db e h
    obtain ⟨rec, fid⟩ := p
    cases hsid : rec.student_id with
    | none =>
      rw [mark_bulk_go_cons_bad cid d caller now rec fid rest db (Or.inl hsid)] at h
      cases h
      rfl
    | some sid =>
      cases hst : rec.status with
      | none =>
        rw [mark_bulk_go_cons_bad cid d caller now rec fid rest db (Or.inr hst)] at h
        cases h
        rfl
      | some st =>
        rw [mark_bulk_go_cons_snd cid d caller now rec fid rest db sid st hsid hst] at h
        cases hgo : (mark_bulk_go cid d caller now rest
            (bulkStep cid d caller now db sid st rec.remarks fid).1).2 with
        | ok l => rw [hgo] at h; simp [Except.map] at h
        | error e' =>
          rw [hgo] at h
          simp only [Except.map, Except.error.injEq] at h
          subst h
          exact ih _ e' hgo

/-- C5: on well-formed input `markBulk` returns one result entry per input
record, in input order; an entry reports `"created"` exactly when no
record for its `(studentId, classId, date)` triple existed in the state
reached when it was processed, and `"updated"` otherwise; the empty input
yields the empty result list, not an error. -/
theorem bulk_results_order (db : List AttendanceRecord) (class_id date : String)
    (records : List (BulkRecord × String)) (callerId : String) (now : Nat)
    (hw : ∀ p ∈ records, p.1.student_id.isSome ∧ p.1.status.isSome) :
    ∃ l, (mark_bulk_attendance db class_id date records callerId now).2 = Except.ok l ∧
      l.length = records.length ∧
      (∀ i (e : BulkResult) (q : BulkRecord × String),
        l[i]? = some e → records[i]? = some q →
        e.student_id = (q.1.student_id).getD "" ∧
        (e.action = "created" ↔
          (mark_bulk_attendance db class_id date (records.take i) callerId now).1.find?
            (tripleMatch ((q.1.student_id).getD "") class_id date) = none) ∧
        (e.action = "created" ∨ e.action = "updated")) ∧
      (records = [] → l = []) := by
  obtain ⟨l, h1, h2, h3⟩ := mark_bulk_go_spec class_id date callerId now records db hw
  refine ⟨l, h1, h2, h3, fun hnil => ?_⟩
  subst hnil
  have h1' : Except.ok ([] : List BulkResult) = Except.ok l := h1
  exact (Except.ok.inj h1').symm

/-- C5 witness: two entries for the same triple starting from the empty
collection — the first reports `"created"`, the second `"updated"`. -/
theorem bulk_results_order_witness :
    ∃ l, (mark_bulk_attendance [] "c1" "2024-01-05"
        [(⟨some "s1", some "present", none⟩, "id1"),
         (⟨some "s1", some "absent", none⟩, "id2")] "t1" 5).2 = Except.ok l ∧
      l.length = [(((⟨some "s1", some "present", none⟩ : BulkRecord), "id1")),
         ((⟨some "s1", some "absent", none⟩ : BulkRecord), "id2")].length ∧
      (∀ i (e : BulkResult) (q : BulkRecord × String),
        l[i]? = some e →
        [(((⟨some "s1", some "present", none⟩ : BulkRecord), "id1")),
         ((⟨some "s1", some "absent", none⟩ : BulkRecord), "id2")][i]? = some q →
        e.student_id = (q.1.student_id).getD "" ∧
        (e.action = "created" ↔
          (mark_bulk_attendance [] "c1" "2024-01-05"
            ([(((⟨some "s1", some "present", none⟩ : BulkRecord), "id1")),
              ((⟨some "s1", some "absent", none⟩ : BulkRecord), "id2")].take i)
            "t1" 5).1.find?
            (tripleMatch ((q.1.student_id).getD "") "c1" "2024-01-05") = none) ∧
        (e.action = "created" ∨ e.action = "updated")) ∧
      ([(((⟨some "s1", some "present", none⟩ : BulkRecord), "id1")),
        ((⟨some "s1", some "absent", none⟩ : BulkRecord), "id2")]
          = ([] : List (BulkRecord × String)) → l = []) :=
  bulk_results_order [] "c1" "2024-01-05"
    [(⟨some "s1", some "present", none⟩, "id1"),
     (⟨some "s1", some "absent", none⟩, "id2")] "t1" 5 (by decide)

/-- C9: when the bulk loop hits a malformed entry, the request fails with
the surfaced `KeyError`, but the collection state is exactly the state
after processing the preceding entries — nothing is rolled back. -/
theorem bulk_no_rollback (db : List AttendanceRecord)
    (class_id date : String) (good : List (BulkRecord × String))
    (bad : BulkRecord × String) (rest : List (BulkRecord × String))
    (callerId : String) (now : Nat)
    (hg : ∀ p ∈ good, p.1.student_id.isSome ∧ p.1.status.isSome)
    (hb : bad.1.student_id = none ∨ bad.1.status = none) :
    (mark_bulk_attendance db class_id date (good ++ bad :: rest) callerId now).1 =
      (mark_bulk_attendance db class_id date good callerId now).1 ∧
    (mark_bulk_attendance db class_id date (good ++ bad :: rest) callerId now).2 =
      Except.error ⟨500, "KeyError"⟩ := by
  unfold mark_bulk_attendance
  induction good generalizing db with
  | nil =>
    obtain ⟨brec, bfid⟩ := bad
    rw [List.nil_append,
      mark_bulk_go_cons_bad class_id date callerId now brec bfid rest db hb]
    exact ⟨rfl, rfl⟩
  | cons p good' ih =>
    obtain ⟨rec, fid⟩ := p
    obtain ⟨sid, hsid⟩ :=
      Option.isSome_iff_exists.mp (hg (rec, fid) (List.mem_cons_self _ _)).1
    obtain ⟨st, hst⟩ :=
      Option.isSome_iff_exists.mp (hg (rec, fid) (List.mem_cons_self _ _)).2
    have ih' := ih ((bulkStep class_id date callerId now db sid st rec.remarks fid).1)
      (fun q hq => hg q (List.mem_cons_of_mem _ hq))
    constructor
    · rw [List.cons_append,
        mark_bulk_go_cons_fst class_id date callerId now rec fid (good' ++ bad :: rest)
          db sid st hsid hst,
        mark_bulk_go_cons_fst class_id date callerId now rec fid good' db sid st hsid hst]
      exact ih'.1
    · rw [List.cons_append,
        mark_bulk_go_cons_snd class_id date callerId now rec fid (good' ++ bad :: rest)
          db sid st hsid hst,
        ih'.2]
      rfl

/-- C9 witness: a three-entry bulk call whose second entry lacks
`student_id`; the request errors yet the state equals the state after the
first entry alone. -/
theorem bulk_no_rollback_witness :
    (mark_bulk_attendance [] "c1" "2024-01-05"
        ([(⟨some "s1", some "present", none⟩, "id1")] ++
          (((⟨none, some "absent", none⟩ : BulkRecord), "id2") ::
            [(⟨some "s2", some "present", none⟩, "id3")])) "t1" 5).1 =
      (mark_bulk_attendance [] "c1" "2024-01-05"
        [(⟨some "s1", some "present", none⟩, "id1")] "t1" 5).1 ∧
    (mark_bulk_attendance [] "c1" "2024-01-05"
        ([(⟨some "s1", some "present", none⟩, "id1")] ++
          (((⟨none, some "absent", none⟩ : BulkRecord), "id2") ::
            [(⟨some "s2", some "present", none⟩, "id3")])) "t1" 5).2 =
      Except.error ⟨500, "KeyError"⟩ :=
  bulk_no_rollback [] "c1" "2024-01-05"
    [(⟨some "s1", some "present", none⟩, "id1")]
    (⟨none, some "absent", none⟩, "id2")
    [(⟨some "s2", some "present", none⟩, "id3")] "t1" 5
    (by decide) (Or.inl rfl)

/-- Patching in place never changes the collection size. -/
theorem updateFirst_length {α : Type} (p : α → Bool) (f : α → α) :
    ∀ l : List α, (updateFirst p f l).length = l.length := by
  intro l
  induction l with
  | nil => rfl
  | cons x xs ih =>
    by_cases hx : p x = true
    · simp [updateFirst, hx]
    · simp [updateFirst, hx, ih]

/-- A patch that keeps the filter satisfied keeps `find?` successful. -/
theorem updateFirst_find?_isSome {α : Type} (p : α → Bool) (f : α → α)
    (hpf : ∀ x, p x = true → p (f x) = true) :
    ∀ l : List α, (l.find? p).isSome = true →
    ((updateFirst p f l).find? p).isSome = true := by
  intro l
  induction l with
  | nil => intro h; simp at h
  | cons x xs ih =>
    intro h
    by_cases hx : p x = true
    · rw [show updateFirst p f (x :: xs) = f x :: xs by simp [updateFirst, hx]]
      rw [List.find?_cons_of_pos _ (hpf x hx)]
      rfl
    · rw [List.find?_cons_of_neg _ (by simpa using hx)] at h
      rw [show updateFirst p f (x :: xs) = x :: updateFirst p f xs by
        simp [updateFirst, hx]]
      rw [List.find?_cons_of_neg _ (by simpa using hx)]
      exact ih h

/-- C8: duplicate marking is never an error.  `markOne` always returns a
record to the caller; when a record for the triple already exists, the
collection does not grow — the record is overwritten in place.  `markBulk`
on well-formed entries always succeeds, duplicates included, and the only
error it can ever produce is the HTTP 500 of a malformed entry — no 4xx
`Conflict` exists. -/
theorem mark_no_conflict (db : List AttendanceRecord) (input : AttendanceCreate)
    (callerId freshId : String) (now : Nat) (class_id date : String)
    (records : List (BulkRecord × String)) (caller2 : String) (now2 : Nat) :
    (mark_attendance db input callerId freshId now).2.isSome = true ∧
    ((∃ r ∈ db, tripleMatchI input r = true) →
      (mark_attendance db input callerId freshId now).1.length = db.length) ∧
    ((∀ p ∈ records, p.1.student_id.isSome ∧ p.1.status.isSome) →
      ∃ l, (mark_bulk_attendance db class_id date records caller2 now2).2
        = Except.ok l) ∧
    (∀ e, (mark_bulk_attendance db class_id date records caller2 now2).2
        = Except.error e → e.status_code = 500) := by
  refine ⟨?_, ?_, ?_, ?_⟩
  · cases hf : db.find? (tripleMatchI input) with
    | none => simp [mark_attendance, hf]
    | some ex =>
      have hmem : ex ∈ db := List.mem_of_find?_eq_some hf
      have hsome : (db.find? (fun r => r.id == ex.id)).isSome = true :=
        List.find?_isSome.mpr ⟨ex, hmem, by simp⟩
      have := updateFirst_find?_isSome (fun r => r.id == ex.id)
        (applyMark input callerId now) (fun x hx => hx) db hsome
      simpa [mark_attendance, hf] using this
  · rintro ⟨r, hr, hm⟩
    have hsome : (db.find? (tripleMatchI input)).isSome = true :=
      List.find?_isSome.mpr ⟨r, hr, hm⟩
    obtain ⟨ex, hf⟩ := Option.isSome_iff_exists.mp hsome
    rw [show (mark_attendance db input callerId freshId now).1
        = updateFirst (fun x => x.id == ex.id) (applyMark input callerId now) db by
      simp [mark_attendance, hf]]
    exact updateFirst_length _ _ db
  · intro hw
    obtain ⟨l, h1, -⟩ := mark_bulk_go_spec class_id date caller2 now2 records db hw
    exact ⟨l, h1⟩
  · intro e he
    exact mark_bulk_go_error_code class_id date caller2 now2 records db e he

/-- C8 witness: a collection already holding the triple; the duplicate
`markOne` succeeds without growing the collection, the duplicate `markBulk`
succeeds, and the error of a malformed bulk call carries status 500. -/
theorem mark_no_conflict_witness :
    (mark_attendance
        [⟨"id0", "s1", "c1", "2024-01-05", "present", "t0", none, 1, 1⟩]
        ⟨"s1", "c1", "2024-01-05", "late", none⟩ "t1" "idN" 5).2.isSome = true ∧
    (mark_attendance
        [⟨"id0", "s1", "c1", "2024-01-05", "present", "t0", none, 1, 1⟩]
        ⟨"s1", "c1", "2024-01-05", "late", none⟩ "t1" "idN" 5).1.length
      = ([⟨"id0", "s1", "c1", "2024-01-05", "present", "t0", none, 1, 1⟩]
          : List AttendanceRecord).length ∧
    (∃ l, (mark_bulk_attendance
        [⟨"id0", "s1", "c1", "2024-01-05", "present", "t0", none, 1, 1⟩]
        "c1" "2024-01-05" [(⟨some "s1", some "absent", none⟩, "idX")] "t1" 5).2
      = Except.ok l) ∧
    (⟨500, "KeyError"⟩ : HTTPException).status_code = 500 :=
  ⟨(mark_no_conflict
      [⟨"id0", "s1", "c1", "2024-01-05", "present", "t0", none, 1, 1⟩]
      ⟨"s1", "c1", "2024-01-05", "late", none⟩ "t1" "idN" 5 "c1" "2024-01-05"
      [(⟨some "s1", some "absent", none⟩, "idX")] "t1" 5).1,
   (mark_no_conflict
      [⟨"id0", "s1", "c1", "2024-01-05", "present", "t0", none, 1, 1⟩]
      ⟨"s1", "c1", "2024-01-05", "late", none⟩ "t1" "idN" 5 "c1" "2024-01-05"
      [(⟨some "s1", some "absent", none⟩, "idX")] "t1" 5).2.1
     ⟨⟨"id0", "s1", "c1", "2024-01-05", "present", "t0", none, 1, 1⟩,
       by decide, by decide⟩,
   (mark_no_conflict
      [⟨"id0", "s1", "c1", "2024-01-05", "present", "t0", none, 1, 1⟩]
      ⟨"s1", "c1", "2024-01-05", "late", none⟩ "t1" "idN" 5 "c1" "2024-01-05"
      [(⟨some "s1", some "absent", none⟩, "idX")] "t1" 5).2.2.1 (by decide),
   (mark_no_conflict
      [⟨"id0", "s1", "c1", "2024-01-05", "present", "t0", none, 1, 1⟩]
      ⟨"s1", "c1", "2024-01-05", "late", none⟩ "t1" "idN" 5 "c1" "2024-01-05"
      [(⟨none, some "absent", none⟩, "idX")] "t1" 5).2.2.2 ⟨500, "KeyError"⟩ rfl⟩

end StudentAttendance
